import Mathlib

/-!
Verification of the tc-data-creator-mcp core against its specification.

The Python modules under `src/tc_data_creator_mcp/` are shallowly embedded
below: pure logic becomes Lean functions over `ℚ`-valued tables, effectful
control flow becomes explicit traces or `Except` values, and the points
where library calls may raise are modelled by explicit outcome parameters.
-/

namespace TcDataCreator

/-! ## Data model

Pandas dtypes, as the code inspects them (`analyze.py`, `quality_validator.py`
compare `dtype` against the strings "int64", "float64", "object"). -/

inductive Dtype
  | int64
  | float64
  | object
  | boolDt
  | datetime
deriving DecidableEq, Repr

/-- Membership test for `select_dtypes(include=["int64", "float64"])`. -/
def Dtype.isNumeric : Dtype → Bool
  | .int64 => true
  | .float64 => true
  | _ => false

/-! ## Loader source validation (`data_loaders/loader.py`, `load_data`) -/

/-- The four optional keyword arguments of `load_data`. -/
structure LoadArgs where
  file_path : Option String
  inline_data : Option String
  db_connection : Option String
  table_name : Option String
deriving DecidableEq, Repr

/-- Python truthiness of an `Optional[str]`: `None` and `""` are falsy. -/
def pyTruthy : Option String → Bool
  | none => false
  | some s => !s.isEmpty

/-- The count `sources_provided = sum([bool(file_path), bool(inline_data),
bool(db_connection and table_name)])` (loader.py lines 40-44). -/
def sourcesProvided (a : LoadArgs) : Nat :=
  (if pyTruthy a.file_path then 1 else 0) +
  (if pyTruthy a.inline_data then 1 else 0) +
  (if pyTruthy a.db_connection && pyTruthy a.table_name then 1 else 0)

/-- Error message raised when `sources_provided == 0` (loader.py line 47). -/
def zeroSourcesMsg : String :=
  "Must provide exactly one of: file_path, inline_data, or (db_connection + table_name)"

/-- Error message raised when `sources_provided > 1` (loader.py line 51). -/
def multiSourcesMsg : String :=
  "Provide only one input source: file_path, inline_data, or (db_connection + table_name)"

/-- The source-exclusivity validation at the top of `load_data`
(loader.py lines 39-53): raises `ValueError` on zero or multiple sources,
otherwise control proceeds to the actual loading branches. -/
def validateSources (a : LoadArgs) : Except String Unit :=
  if sourcesProvided a = 0 then .error zeroSourcesMsg
  else if sourcesProvided a > 1 then .error multiSourcesMsg
  else .ok ()

/-! ## Analyze recommendation (`tools/analyze.py`, `analyze_sample_data`) -/

/-- The shape of a loaded sample frame that the recommendation logic
inspects: `len(df)` rows and named, dtyped columns. -/
structure SampleDF where
  numRows : Nat
  columns : List (String × Dtype)
deriving DecidableEq, Repr

/-- Length of `df.select_dtypes(include=["int64", "float64"]).columns`. -/
def numericColCount (df : SampleDF) : Nat :=
  (df.columns.filter (fun c => c.2.isNumeric)).length

/-- The `recommendations` record returned by `analyze_sample_data`. -/
structure Recommendation where
  synthesizer : String
  reason : String
deriving DecidableEq, Repr

/-- The recommendation logic of `analyze_sample_data` (analyze.py lines
86-99): default to gaussian_copula, switch to tvae when
`len(numeric_cols) / len(df.columns) < 0.3`. -/
def synthesizerRecommendation (df : SampleDF) : Recommendation :=
  let rec0 : Recommendation :=
    { synthesizer := "gaussian_copula"
      reason := "Fast and suitable for most tabular data with mixed types" }
  if (numericColCount df : ℚ) / (df.columns.length : ℚ) < 3/10 then
    { synthesizer := "tvae"
      reason := "TVAE handles categorical and mixed data types better" }
  else rec0

/-! ## Constraint compilation (`synthesizers/constraints_handler.py`) -/

/-- A per-column entry of the constraints configuration dict: the keys
"min", "max", "strict" and "unique" that `_build_column_constraints` and
`_apply_post_constraints` read.  An absent key is `none`
(`config.get("strict", True)` supplies the default for "strict"). -/
structure ColumnConfig where
  min? : Option ℚ
  max? : Option ℚ
  strict? : Option Bool
  unique : Bool
deriving DecidableEq, Repr

/-- The SDV constraint objects the handler constructs, as a tagged variant. -/
inductive SDVConstraint
  | scalarRange (columnName : String) (lowValue highValue : ℚ) (strictBoundaries : Bool)
  | positive (columnName : String)
  | negative (columnName : String)
  | uniqueC (columnName : String)
  | inequality (lowColumnName highColumnName : String)
  | fixedCombinations (columnNames : List String)
  | formulaC (columnName : String) (formula : String)
deriving DecidableEq, Repr

/-- The method `_build_column_constraints` (constraints_handler.py lines
64-98): a ScalarRange when both bounds are given (strict defaulting to
true), Positive / Negative for a lone zero bound, Unique when flagged;
the "values" key compiles to nothing. -/
def buildColumnConstraints (column : String) (config : ColumnConfig) : List SDVConstraint :=
  let rangeCs : List SDVConstraint :=
    if config.min?.isSome || config.max?.isSome then
      match config.min?, config.max? with
      | some low, some high => [.scalarRange column low high (config.strict?.getD true)]
      | some low, none => if low = 0 then [.positive column] else []
      | none, some high => if high = 0 then [.negative column] else []
      | none, none => []
    else []
  let uniqueCs : List SDVConstraint :=
    if config.unique then [.uniqueC column] else []
  rangeCs ++ uniqueCs

/-! ## Post-generation constraint repair
(`synthesizers/gaussian_copula.py`, `_apply_post_constraints`) -/

/-- A pandas Series clip: `df[col].clip(lower=low, upper=high)` applies the
lower bound first, then the upper bound; a `None` bound is skipped. -/
def seriesClip (low high : Option ℚ) (v : ℚ) : ℚ :=
  let v1 := match low with
    | none => v
    | some l => max v l
  match high with
  | none => v1
  | some h => min v1 h

/-- The min/max branch of `_apply_post_constraints` for one column
(gaussian_copula.py lines 90-94): when the config carries "min" or "max"
and the column is numeric, clip every value; otherwise leave the column
untouched. -/
def applyRangeRepair (config : ColumnConfig) (isNumericDtype : Bool) (col : List ℚ) : List ℚ :=
  if (config.min?.isSome || config.max?.isSome) && isNumericDtype then
    col.map (seriesClip config.min? config.max?)
  else col

/-- Split a list of characters at its last occurrence of `sep`, mirroring
Python's `str.rsplit(sep, 1)` when the separator occurs: returns the part
before the last `sep` and the part after it, or `none` when absent. -/
def breakAtLast (sep : Char) : List Char → Option (List Char × List Char)
  | [] => none
  | c :: cs =>
    match breakAtLast sep cs with
    | some (before, after) => some (c :: before, after)
    | none => if c = sep then some ([], cs) else none

/-- The reassignment of one value inside `make_unique`
(gaussian_copula.py lines 102-113): first sighting of a value keeps it and
records counter 0; a repeat bumps the value's counter and, for values
containing an at sign, rewrites `local@domain` (split at the last at sign)
to `local+<n>@domain`, otherwise appends `_<n>`.  The `seen` dict is an
association list. -/
def makeUniqueStep (seen : List (String × Nat)) (val : String) :
    List (String × Nat) × String :=
  match (seen.lookup val) with
  | none => ((val, 0) :: seen, val)
  | some n =>
    let seen' := seen.map (fun p => if p.1 = val then (p.1, n + 1) else p)
    if val.data.contains '@' then
      match breakAtLast '@' val.data with
      | some (loc, dom) =>
        (seen', String.mk (loc ++ ('+' :: (toString (n + 1)).data) ++ ('@' :: dom)))
      | none => (seen', val ++ "_" ++ toString (n + 1))
    else (seen', val ++ "_" ++ toString (n + 1))

/-- Apply `make_unique` down a column in row order, threading the `seen`
dict (the `df[col].apply(make_unique)` call at gaussian_copula.py line 115). -/
def makeUniquePass (seen : List (String × Nat)) : List String → List String
  | [] => []
  | v :: vs =>
    let step := makeUniqueStep seen v
    step.2 :: makeUniquePass step.1 vs

/-- Does a column contain a duplicated value (`df[col].duplicated().any()`,
gaussian_copula.py line 99)? -/
def hasDuplicates (col : List String) : Bool :=
  !(decide col.Nodup)

/-- The unique-constraint branch of `_apply_post_constraints` for one column
(gaussian_copula.py lines 96-115): when the config flags "unique" and
duplicates exist, run the `make_unique` pass with a fresh `seen` dict. -/
def applyUniqueRepair (config : ColumnConfig) (col : List String) : List String :=
  if config.unique && hasDuplicates col then makeUniquePass [] col else col

/-! ## Formula constraint validity
(`constraints_handler.py`, `FormulaConstraint.is_valid`) -/

/-- The body of the try block in `FormulaConstraint.is_valid`
(constraints_handler.py lines 184-190): `table_data.eval(self.formula)`
together with the column lookup either yields, for each row, the computed
value and the stored value, or raises.  The embedding takes that outcome as
input: `.ok` carries the per-row pairs, `.error` the raised exception. -/
def formulaIsValid (numRowsTable : Nat)
    (attempt : Except String (List (ℚ × ℚ))) : List Bool :=
  match attempt with
  | .ok rows => rows.map (fun r => decide (|r.1 - r.2| < 1/100))
  | .error _ => List.replicate numRowsTable true

/-! ## Quality scoring (`validators/quality_validator.py`) -/

/-- The slice of the `metrics` dict that `_calculate_overall_quality`
consults.  `sdmetrics_score` is `none` when the key was never written;
`column_metrics` holds the values of the per-column score dict, the empty
list standing for an absent or empty (falsy) dict; the remaining three are
`none` when their key is absent. -/
structure QualityMetrics where
  sdmetrics_score : Option ℚ
  column_metrics : List ℚ
  correlation_score : Option ℚ
  privacy_score : Option ℚ
  diversity_score : Option ℚ
deriving DecidableEq, Repr

/-- The arithmetic mean `np.mean` of a list of rationals. -/
def listMean (xs : List ℚ) : ℚ :=
  xs.sum / (xs.length : ℚ)

/-- The function `_calculate_overall_quality` (quality_validator.py lines
272-301): collect the weighted terms of the sub-scores that are present,
return 0.5 when no term was collected, else their sum. -/
def calculateOverallQuality (m : QualityMetrics) : ℚ :=
  let scores : List ℚ :=
    (match m.sdmetrics_score with
      | some s => [s * (4/10)]
      | none => []) ++
    (if m.column_metrics ≠ [] then [listMean m.column_metrics * (3/10)] else []) ++
    (match m.correlation_score with
      | some s => [s * (15/100)]
      | none => []) ++
    (match m.privacy_score with
      | some s => [s * (1/10)]
      | none => []) ++
    (match m.diversity_score with
      | some s => [s * (5/100)]
      | none => [])
  if scores = [] then 1/2 else scores.sum

/-- Round-half-to-even to the nearest integer, the tie-breaking Python's
builtin `round` uses. -/
def roundHalfEven (q : ℚ) : ℤ :=
  if q - ⌊q⌋ < 1/2 then ⌊q⌋
  else if 1/2 < q - ⌊q⌋ then ⌊q⌋ + 1
  else if ⌊q⌋ % 2 = 0 then ⌊q⌋ else ⌊q⌋ + 1

/-- Python's rounding of a value to three decimal places, modelling
`round(overall_quality, 3)` at quality_validator.py line 95. -/
def roundTo3 (q : ℚ) : ℚ :=
  (roundHalfEven (q * 1000) : ℚ) / 1000

/-- How the try block around the SDMetrics calls (quality_validator.py
lines 54-70) can unfold: `QualityReport.generate` raises; `get_score`
raises after a successful generate; `get_properties` (or its `to_dict`)
raises after `get_score` returned `score`; or every call succeeds. -/
inductive SDMetricsOutcome
  | generateRaises
  | getScoreRaises
  | propertiesRaise (score : ℚ)
  | allSucceed (score : ℚ)
deriving DecidableEq, Repr

/-- Did the try block raise (so that the except branch at lines 67-70 ran)? -/
def SDMetricsOutcome.raises : SDMetricsOutcome → Bool
  | .allSucceed _ => false
  | _ => true

/-- The value left under `metrics["sdmetrics_score"]` after the try block:
the assignment at line 61 happens right after `get_score`, so a later
failure in `get_properties` leaves the key written. -/
def sdmetricsEntry : SDMetricsOutcome → Option ℚ
  | .generateRaises => none
  | .getScoreRaises => none
  | .propertiesRaise score => some score
  | .allSucceed score => some score

/-- The metrics record as `generate_quality_report` hands it to
`_calculate_overall_quality`: the keys `column_metrics`, `correlation`
(with its "score"), `privacy_score` and `diversity_score` are written
unconditionally (lines 47-78), while `sdmetrics_score` comes from the try
block's outcome. -/
def reportMetrics (outcome : SDMetricsOutcome) (columnMetrics : List ℚ)
    (correlation privacy diversity : ℚ) : QualityMetrics :=
  { sdmetrics_score := sdmetricsEntry outcome
    column_metrics := columnMetrics
    correlation_score := some correlation
    privacy_score := some privacy
    diversity_score := some diversity }

/-- The `overall_score` field of the returned report dict
(quality_validator.py line 95). -/
def overallScoreField (m : QualityMetrics) : ℚ :=
  roundTo3 (calculateOverallQuality m)

/-! ## Generation orchestration (`tools/generate.py`, `config.py`) -/

/-- Configured ceiling from config.py line 8. -/
def MAX_GENERATED_ROWS : Nat := 1000000

/-- The externally visible steps `generate_synthetic_data` takes after its
row-count validation. -/
inductive GenEvent
  | loadData
  | createSynthesizer
  | fitSynthesizer
  | sampleRows
  | writeOutput
  | qualityReport
deriving DecidableEq, Repr

/-- A run of the orchestrator: the steps performed, and the outcome. -/
structure GenRun where
  events : List GenEvent
  outcome : Except String Unit
deriving Repr

/-- The control flow of `generate_synthetic_data` (generate.py lines
51-107): `num_rows` is validated against `MAX_GENERATED_ROWS` first, and a
violation raises before `load_data` or anything else runs; otherwise the
pipeline load, create, fit, sample, write, score proceeds. -/
def generateSyntheticData (numRows : Nat) : GenRun :=
  if numRows > MAX_GENERATED_ROWS then
    { events := []
      outcome := .error ("Requested rows (" ++ toString numRows ++
        ") exceeds maximum (" ++ toString MAX_GENERATED_ROWS ++ ")") }
  else
    { events := [.loadData, .createSynthesizer, .fitSynthesizer,
        .sampleRows, .writeOutput, .qualityReport]
      outcome := .ok () }

/-! ## Claims about the analyze recommendation -/

/-- C1 counterexample: on a 10-row table with one int64 and one object
column, the numeric-to-row-count ratio is 1/10 < 0.3 so the claim predicts
tvae, but the code divides by the column count (1/2 ≥ 0.3) and recommends
gaussian_copula. -/
theorem analyze_rowcount_ratio_counterexample :
    ¬ ((synthesizerRecommendation ⟨10, [("a", .int64), ("b", .object)]⟩).synthesizer
          = "tvae" ↔
        (numericColCount ⟨10, [("a", .int64), ("b", .object)]⟩ : ℚ) /
          ((10 : Nat) : ℚ) < 3/10) := by
  have hn : numericColCount ⟨10, [("a", .int64), ("b", .object)]⟩ = 1 := rfl
  have hrec : (synthesizerRecommendation
      ⟨10, [("a", .int64), ("b", .object)]⟩).synthesizer = "gaussian_copula" := by
    unfold synthesizerRecommendation
    split_ifs with h
    · exfalso
      rw [hn] at h
      norm_num at h
    · rfl
  intro h
  have h1 : (numericColCount ⟨10, [("a", .int64), ("b", .object)]⟩ : ℚ) /
      ((10 : Nat) : ℚ) < 3/10 := by
    rw [hn]
    norm_num
  have h2 := h.mpr h1
  rw [hrec] at h2
  exact absurd h2 (by decide)

/-- C1 (amended): the analyze operation recommends tvae exactly when the
fraction of numeric columns relative to the **column count** is below 0.3,
and gaussian_copula otherwise. -/
theorem analyze_recommendation_uses_column_ratio (df : SampleDF)
    (_hcols : df.columns ≠ []) :
    (synthesizerRecommendation df).synthesizer = "tvae" ↔
      (numericColCount df : ℚ) / (df.columns.length : ℚ) < 3/10 := by
  unfold synthesizerRecommendation
  split_ifs with h
  · exact iff_of_true rfl h
  · exact iff_of_false (by decide) h

/-- C1 witness: a table of 10 rows with one numeric column among four has
column ratio 1/4 < 0.3 and is recommended tvae. -/
theorem analyze_recommendation_uses_column_ratio_witness :
    (synthesizerRecommendation
        ⟨10, [("a", .int64), ("b", .object), ("c", .object), ("d", .object)]⟩).synthesizer
      = "tvae" :=
  (analyze_recommendation_uses_column_ratio
      ⟨10, [("a", .int64), ("b", .object), ("c", .object), ("d", .object)]⟩
      (by decide)).mpr (by norm_num [numericColCount, Dtype.isNumeric])

/-! ## Claims about the range repair -/

/-- C2 counterexample: a column constrained to min 0, max 10 with the
strict flag set, holding the value -5, is repaired by clipping to 0, which
does not lie in the open interval (0, 10) the claim demands for strict
bounds. -/
theorem rangeRepair_strict_counterexample :
    ¬ (∀ v ∈ applyRangeRepair ⟨some 0, some 10, some true, false⟩ true [(-5 : ℚ)],
        0 < v ∧ v < 10) := by
  decide

/-- C2 (amended): for a column whose configuration carries both min and max
with min ≤ max, every value of the numeric column lies in [min, max]
inclusive after the repair pass — the repair clip is inclusive regardless
of the strict-bounds flag, which only parameterizes the natively enforced
ScalarRange constraint. -/
theorem rangeRepair_within_closed_bounds (config : ColumnConfig) (low high : ℚ)
    (hmin : config.min? = some low) (hmax : config.max? = some high)
    (hlh : low ≤ high) (col : List ℚ) (v : ℚ)
    (hv : v ∈ applyRangeRepair config true col) :
    low ≤ v ∧ v ≤ high := by
  unfold applyRangeRepair at hv
  rw [hmin, hmax] at hv
  simp only [Option.isSome_some, Bool.or_self, Bool.and_true, if_true,
    List.mem_map] at hv
  obtain ⟨x, _, rfl⟩ := hv
  refine ⟨le_min (le_max_right x low) hlh, min_le_right _ _⟩

/-- C2 witness: the value -5 under bounds [0, 10] is clipped to 0, and the
theorem places that repaired value inside the closed interval. -/
theorem rangeRepair_within_closed_bounds_witness :
    (0 : ℚ) ≤ 0 ∧ (0 : ℚ) ≤ 10 :=
  rangeRepair_within_closed_bounds ⟨some 0, some 10, some true, false⟩ 0 10
    rfl rfl (by norm_num) [(-5 : ℚ)] 0 (by decide)

/-! ## Claims about the unique repair -/

/-- C3: at the unique-constrained column ["a", "a_1", "a"] the repair pass
rewrites the duplicated "a" to "a_1", which collides with the pre-existing
"a_1": the repaired column still contains two equal values, contradicting
the code's own stated purpose of making the values unique. -/
theorem uniqueRepair_leaves_duplicates :
    applyUniqueRepair ⟨none, none, none, true⟩ ["a", "a_1", "a"]
        = ["a", "a_1", "a_1"] ∧
      ¬ (["a", "a_1", "a_1"] : List String).Nodup := by
  decide

/-! ## Claims about loader source validation -/

/-- C4: load_data's source validation succeeds exactly when the provided
source count is one, raises the zero-sources InputError at zero, and raises
the multiple-sources InputError at two or more. -/
theorem loadData_source_exclusivity (a : LoadArgs) :
    (validateSources a = .ok () ↔ sourcesProvided a = 1) ∧
    (validateSources a = .error zeroSourcesMsg ↔ sourcesProvided a = 0) ∧
    (validateSources a = .error multiSourcesMsg ↔ 2 ≤ sourcesProvided a) := by
  unfold validateSources
  split_ifs with h0 h1
  · exact ⟨iff_of_false (by simp) (by omega),
      iff_of_true rfl h0,
      iff_of_false (by simp [zeroSourcesMsg, multiSourcesMsg]) (by omega)⟩
  · exact ⟨iff_of_false (by simp) (by omega),
      iff_of_false (by simp [zeroSourcesMsg, multiSourcesMsg]) (by omega),
      iff_of_true rfl (by omega)⟩
  · exact ⟨iff_of_true rfl (by omega),
      iff_of_false (by simp) (by omega),
      iff_of_false (by simp) (by omega)⟩

/-- C4 witness: supplying both a file path and inline data is rejected with
the multiple-sources error. -/
theorem loadData_source_exclusivity_witness :
    validateSources ⟨some "data.csv", some "[]", none, none⟩
        = .error multiSourcesMsg ↔
      2 ≤ sourcesProvided ⟨some "data.csv", some "[]", none, none⟩ :=
  (loadData_source_exclusivity ⟨some "data.csv", some "[]", none, none⟩).2.2

/-- C9: with inline data and table_name absent, a db_connection alone
contributes nothing to the source count, so without a file path validation
fails with the zero-sources message, while with a file path it counts as
exactly one source and succeeds. -/
theorem loadData_db_without_table (a : LoadArgs)
    (_hdb : pyTruthy a.db_connection = true)
    (hinline : pyTruthy a.inline_data = false)
    (htable : pyTruthy a.table_name = false) :
    (pyTruthy a.file_path = false → validateSources a = .error zeroSourcesMsg) ∧
    (pyTruthy a.file_path = true → validateSources a = .ok ()) := by
  unfold validateSources sourcesProvided
  rw [hinline, htable]
  constructor
  · intro hf
    rw [hf]
    simp
  · intro hf
    rw [hf]
    simp

/-- C9 witness: a bare database connection without a table name hits the
zero-sources error, and adding a file path next to it is accepted as one
source. -/
theorem loadData_db_without_table_witness :
    validateSources ⟨none, none, some "sqlite://x", none⟩
        = .error zeroSourcesMsg ∧
      validateSources ⟨some "f.csv", none, some "sqlite://x", none⟩ = .ok () :=
  ⟨(loadData_db_without_table ⟨none, none, some "sqlite://x", none⟩
      (by decide) rfl rfl).1 rfl,
    (loadData_db_without_table ⟨some "f.csv", none, some "sqlite://x", none⟩
      (by decide) rfl rfl).2 (by decide)⟩

/-! ## Helper lemmas on means, rounding and the weighted sum -/

theorem listMean_nonneg (xs : List ℚ) (h : ∀ x ∈ xs, 0 ≤ x) :
    0 ≤ listMean xs :=
  div_nonneg (List.sum_nonneg h) (by positivity)

theorem listMean_le_one (xs : List ℚ) (hne : xs ≠ []) (h : ∀ x ∈ xs, x ≤ 1) :
    listMean xs ≤ 1 := by
  have hlen : (0 : ℚ) < (xs.length : ℚ) := by
    exact_mod_cast List.length_pos.mpr hne
  unfold listMean
  rw [div_le_one hlen]
  calc xs.sum ≤ xs.length • (1 : ℚ) := List.sum_le_card_nsmul xs 1 h
    _ = (xs.length : ℚ) := by simp

theorem optTerm_bounds (o : Option ℚ) (w : ℚ) (hw : 0 ≤ w)
    (h : ∀ v, o = some v → 0 ≤ v ∧ v ≤ 1) :
    0 ≤ o.elim 0 (fun v => v * w) ∧ o.elim 0 (fun v => v * w) ≤ w := by
  cases hx : o with
  | none => exact ⟨le_refl 0, hw⟩
  | some v =>
    obtain ⟨h0, h1⟩ := h v hx
    show 0 ≤ v * w ∧ v * w ≤ w
    exact ⟨mul_nonneg h0 hw, by nlinarith⟩

/-- The weighted-sum normal form of `_calculate_overall_quality`: 0.5 when
every sub-score is absent, otherwise the sum of the present weighted
terms. -/
theorem calculateOverallQuality_eq (m : QualityMetrics) :
    calculateOverallQuality m =
      if m.sdmetrics_score = none ∧ m.column_metrics = [] ∧
          m.correlation_score = none ∧ m.privacy_score = none ∧
          m.diversity_score = none then 1/2
      else
        m.sdmetrics_score.elim 0 (fun v => v * (4/10)) +
        (if m.column_metrics = [] then 0
          else listMean m.column_metrics * (3/10)) +
        m.correlation_score.elim 0 (fun v => v * (15/100)) +
        m.privacy_score.elim 0 (fun v => v * (1/10)) +
        m.diversity_score.elim 0 (fun v => v * (5/100)) := by
  rcases m with ⟨s, c, r, p, d⟩
  cases s <;> cases r <;> cases p <;> cases d <;> cases c <;>
    simp [calculateOverallQuality] <;> ring

theorem overallQuality_mem_unit (m : QualityMetrics)
    (hs : ∀ v, m.sdmetrics_score = some v → 0 ≤ v ∧ v ≤ 1)
    (hc : ∀ x ∈ m.column_metrics, 0 ≤ x ∧ x ≤ 1)
    (hr : ∀ v, m.correlation_score = some v → 0 ≤ v ∧ v ≤ 1)
    (hp : ∀ v, m.privacy_score = some v → 0 ≤ v ∧ v ≤ 1)
    (hd : ∀ v, m.diversity_score = some v → 0 ≤ v ∧ v ≤ 1) :
    0 ≤ calculateOverallQuality m ∧ calculateOverallQuality m ≤ 1 := by
  rw [calculateOverallQuality_eq]
  by_cases hall : m.sdmetrics_score = none ∧ m.column_metrics = [] ∧
      m.correlation_score = none ∧ m.privacy_score = none ∧
      m.diversity_score = none
  · rw [if_pos hall]
    norm_num
  · rw [if_neg hall]
    have t1 := optTerm_bounds m.sdmetrics_score (4/10) (by norm_num) hs
    have t3 := optTerm_bounds m.correlation_score (15/100) (by norm_num) hr
    have t4 := optTerm_bounds m.privacy_score (1/10) (by norm_num) hp
    have t5 := optTerm_bounds m.diversity_score (5/100) (by norm_num) hd
    have t2 : 0 ≤ (if m.column_metrics = [] then (0 : ℚ)
          else listMean m.column_metrics * (3/10)) ∧
        (if m.column_metrics = [] then (0 : ℚ)
          else listMean m.column_metrics * (3/10)) ≤ 3/10 := by
      split_ifs with hnil
      · norm_num
      · have hm0 : 0 ≤ listMean m.column_metrics :=
          listMean_nonneg _ (fun x hx => (hc x hx).1)
        have hm1 : listMean m.column_metrics ≤ 1 :=
          listMean_le_one _ hnil (fun x hx => (hc x hx).2)
        exact ⟨mul_nonneg hm0 (by norm_num), by nlinarith⟩
    constructor
    · linarith [t1.1, t2.1, t3.1, t4.1, t5.1]
    · linarith [t1.2, t2.2, t3.2, t4.2, t5.2]

theorem roundHalfEven_nonneg (x : ℚ) (h : 0 ≤ x) : 0 ≤ roundHalfEven x := by
  have hf : (0 : ℤ) ≤ ⌊x⌋ := Int.floor_nonneg.mpr h
  unfold roundHalfEven
  split_ifs <;> omega

theorem roundHalfEven_le_of_le (x : ℚ) (n : ℤ) (h : x ≤ (n : ℚ)) :
    roundHalfEven x ≤ n := by
  have hf : ⌊x⌋ ≤ n := by simpa using Int.floor_mono h
  have hfr : (⌊x⌋ : ℚ) ≤ x := Int.floor_le x
  unfold roundHalfEven
  split_ifs with h1 h2 h3
  · exact hf
  · have hx : (⌊x⌋ : ℚ) < (n : ℚ) := by linarith
    have : ⌊x⌋ < n := by exact_mod_cast hx
    omega
  · exact hf
  · have heq : x - (⌊x⌋ : ℚ) = 1/2 := le_antisymm (not_lt.mp h2) (not_lt.mp h1)
    have hx : (⌊x⌋ : ℚ) < (n : ℚ) := by linarith
    have : ⌊x⌋ < n := by exact_mod_cast hx
    omega

theorem roundTo3_mem_unit (q : ℚ) (h0 : 0 ≤ q) (h1 : q ≤ 1) :
    0 ≤ roundTo3 q ∧ roundTo3 q ≤ 1 := by
  have hnn : (0 : ℤ) ≤ roundHalfEven (q * 1000) :=
    roundHalfEven_nonneg _ (by positivity)
  have hle : roundHalfEven (q * 1000) ≤ 1000 :=
    roundHalfEven_le_of_le _ 1000 (by push_cast; linarith)
  unfold roundTo3
  constructor
  · apply div_nonneg _ (by norm_num)
    exact_mod_cast hnn
  · rw [div_le_one (by norm_num)]
    exact_mod_cast hle

/-! ## Claims about the overall quality score -/

/-- C5: the overall quality equals the weighted sum of the available
sub-scores — sdmetrics × 0.40 + mean column similarity × 0.30 +
correlation × 0.15 + privacy × 0.10 + diversity × 0.05, each term present
only when its sub-score is — and equals 0.5 when none is available. -/
theorem overallQuality_weighted_sum (m : QualityMetrics) :
    calculateOverallQuality m =
      if m.sdmetrics_score = none ∧ m.column_metrics = [] ∧
          m.correlation_score = none ∧ m.privacy_score = none ∧
          m.diversity_score = none then 1/2
      else
        m.sdmetrics_score.elim 0 (fun v => v * (4/10)) +
        (if m.column_metrics = [] then 0
          else listMean m.column_metrics * (3/10)) +
        m.correlation_score.elim 0 (fun v => v * (15/100)) +
        m.privacy_score.elim 0 (fun v => v * (1/10)) +
        m.diversity_score.elim 0 (fun v => v * (5/100)) :=
  calculateOverallQuality_eq m

/-- C6: whenever each present sub-score lies in [0,1], the rounded
`overall_score` field of the report lies in [0,1]. -/
theorem overallScore_within_unit_interval (m : QualityMetrics)
    (hs : ∀ v, m.sdmetrics_score = some v → 0 ≤ v ∧ v ≤ 1)
    (hc : ∀ x ∈ m.column_metrics, 0 ≤ x ∧ x ≤ 1)
    (hr : ∀ v, m.correlation_score = some v → 0 ≤ v ∧ v ≤ 1)
    (hp : ∀ v, m.privacy_score = some v → 0 ≤ v ∧ v ≤ 1)
    (hd : ∀ v, m.diversity_score = some v → 0 ≤ v ∧ v ≤ 1) :
    0 ≤ overallScoreField m ∧ overallScoreField m ≤ 1 := by
  have hq := overallQuality_mem_unit m hs hc hr hp hd
  unfold overallScoreField
  exact roundTo3_mem_unit _ hq.1 hq.2

/-- C6 witness: with every sub-score at 1/2 the overall score is within
the unit interval. -/
theorem overallScore_within_unit_interval_witness :
    0 ≤ overallScoreField ⟨some (1/2), [1/2], some (1/2), some (1/2), some (1/2)⟩ ∧
      overallScoreField ⟨some (1/2), [1/2], some (1/2), some (1/2), some (1/2)⟩ ≤ 1 :=
  overallScore_within_unit_interval
    ⟨some (1/2), [1/2], some (1/2), some (1/2), some (1/2)⟩
    (by intro v hv; rw [Option.some.injEq] at hv; subst hv; norm_num)
    (by intro x hx; simp only [List.mem_singleton] at hx; subst hx; norm_num)
    (by intro v hv; rw [Option.some.injEq] at hv; subst hv; norm_num)
    (by intro v hv; rw [Option.some.injEq] at hv; subst hv; norm_num)
    (by intro v hv; rw [Option.some.injEq] at hv; subst hv; norm_num)

/-! ## Claim about the formula constraint -/

/-- C7: a formula evaluation failure marks every row of the table
satisfied, and a successful evaluation marks row i satisfied exactly when
the computed and stored values differ by less than 0.01. -/
theorem formulaConstraint_tolerance (n : Nat) :
    (∀ e : String, formulaIsValid n (.error e) = List.replicate n true) ∧
    (∀ (rows : List (ℚ × ℚ)) (i : Nat), i < rows.length →
      ((formulaIsValid n (.ok rows)).getD i false = true ↔
        |(rows.getD i (0, 0)).1 - (rows.getD i (0, 0)).2| < 1/100)) := by
  refine ⟨fun e => rfl, ?_⟩
  intro rows
  induction rows with
  | nil => intro i hi; simp at hi
  | cons r rs ih =>
    intro i hi
    cases i with
    | zero => simp [formulaIsValid]
    | succ j =>
      have hj := ih j (by simpa using hi)
      simpa [formulaIsValid] using hj

/-- C7 witness: with two rows, the failure case marks both satisfied, and
the first row of a successful evaluation at equal values is satisfied. -/
theorem formulaConstraint_tolerance_witness :
    formulaIsValid 2 (.error "err") = [true, true] ∧
      ((formulaIsValid 2 (.ok [((1 : ℚ), (1 : ℚ)), (2, 3)])).getD 0 false = true ↔
        |((([((1 : ℚ), (1 : ℚ)), (2, 3)]).getD 0 (0, 0)).1 -
          (([((1 : ℚ), (1 : ℚ)), (2, 3)]).getD 0 (0, 0)).2)| < 1/100) :=
  ⟨(formulaConstraint_tolerance 2).1 "err",
    (formulaConstraint_tolerance 2).2 [((1 : ℚ), (1 : ℚ)), (2, 3)] 0 (by norm_num)⟩

/-! ## Claim about the generation row ceiling -/

/-- C8: a requested row count above MAX_GENERATED_ROWS makes
generate_synthetic_data fail with the ceiling error while performing no
step at all — in particular load_data is never invoked. -/
theorem generate_rowcount_guard (numRows : Nat)
    (h : MAX_GENERATED_ROWS < numRows) :
    GenEvent.loadData ∉ (generateSyntheticData numRows).events ∧
    (generateSyntheticData numRows).events = [] ∧
    (generateSyntheticData numRows).outcome =
      .error ("Requested rows (" ++ toString numRows ++ ") exceeds maximum (" ++
        toString MAX_GENERATED_ROWS ++ ")") := by
  unfold generateSyntheticData
  rw [if_pos h]
  exact ⟨List.not_mem_nil _, rfl, rfl⟩

/-- C8 witness: requesting 1000001 rows is refused with nothing loaded. -/
theorem generate_rowcount_guard_witness :
    GenEvent.loadData ∉ (generateSyntheticData 1000001).events ∧
    (generateSyntheticData 1000001).events = [] ∧
    (generateSyntheticData 1000001).outcome =
      .error ("Requested rows (" ++ toString 1000001 ++ ") exceeds maximum (" ++
        toString MAX_GENERATED_ROWS ++ ")") :=
  generate_rowcount_guard 1000001 (by norm_num [MAX_GENERATED_ROWS])

/-! ## Claims about the sdmetrics failure path -/

/-- C10 counterexample: when `get_properties` raises after `get_score`
succeeded with 1, the try block raised yet `sdmetrics_score` is present,
and with the other sub-scores at 1 the overall score is 1 — above 0.60. -/
theorem sdmetrics_key_absent_counterexample :
    (SDMetricsOutcome.propertiesRaise 1).raises = true ∧
    sdmetricsEntry (SDMetricsOutcome.propertiesRaise 1) = some 1 ∧
    ¬ calculateOverallQuality
        (reportMetrics (.propertiesRaise 1) [1] 1 1 1) ≤ 6/10 := by
  refine ⟨rfl, rfl, ?_⟩
  have hval : calculateOverallQuality
      (reportMetrics (.propertiesRaise 1) [1] 1 1 1) = 1 := by
    rw [calculateOverallQuality_eq]
    rw [if_neg (by simp [reportMetrics, sdmetricsEntry])]
    norm_num [reportMetrics, sdmetricsEntry, listMean, Option.elim]
  rw [hval]
  norm_num

/-- C10 (amended): when the try block raises in `generate` or `get_score`
— before the score assignment — the sdmetrics key is absent, and with the
remaining sub-scores bounded by 1 the overall score is at most 0.60; the
locally assigned neutral 0.5 never enters the metrics. -/
theorem sdmetrics_early_failure_caps_overall (outcome : SDMetricsOutcome)
    (h : outcome = .generateRaises ∨ outcome = .getScoreRaises)
    (colM : List ℚ) (hc : ∀ x ∈ colM, x ≤ 1)
    (corr privacy diversity : ℚ)
    (hcorr : corr ≤ 1) (hpriv : privacy ≤ 1) (hdiv : diversity ≤ 1) :
    sdmetricsEntry outcome = none ∧
    calculateOverallQuality (reportMetrics outcome colM corr privacy diversity)
      ≤ 6/10 := by
  have hent : sdmetricsEntry outcome = none := by
    rcases h with rfl | rfl <;> rfl
  refine ⟨hent, ?_⟩
  rw [calculateOverallQuality_eq]
  simp only [reportMetrics, hent, Option.elim]
  rw [if_neg (by simp)]
  have hcol : (if colM = [] then (0 : ℚ) else listMean colM * (3/10)) ≤ 3/10 := by
    split_ifs with hnil
    · norm_num
    · have := listMean_le_one colM hnil hc
      nlinarith
  nlinarith [hcol]

/-- C10 witness: a failure inside `QualityReport.generate`, with the other
sub-scores all at 1, leaves the key absent and the overall score at 0.60. -/
theorem sdmetrics_early_failure_caps_overall_witness :
    sdmetricsEntry .generateRaises = none ∧
    calculateOverallQuality (reportMetrics .generateRaises [1] 1 1 1) ≤ 6/10 :=
  sdmetrics_early_failure_caps_overall .generateRaises (Or.inl rfl) [1]
    (by intro x hx; simp only [List.mem_singleton] at hx; subst hx; norm_num)
    1 1 1 (by norm_num) (by norm_num) (by norm_num)

end TcDataCreator
